import Mathlib

/-!
Verification of the MCP chatbot client orchestration core
(`src/server/main.py`, `src/server/api.py`) via a shallow embedding.

Conventions of the embedding:
* JSON-decoded Python values are modelled by `PyVal` (floats are not needed
  by any claim and are omitted; JSON numbers appearing in the claims are
  integers).
* Python exceptions are modelled by `PyErr`; a function that can raise
  returns `Except PyErr _` or pairs its yields with an `Option PyErr`.
* `json.loads` is an external library call; it is modelled as an abstract
  parameter `parse : String → Option PyVal` (`none` = `json.JSONDecodeError`).
  Concrete instantiations used in witnesses agree with `json.loads` on the
  inputs they are applied to.
* Async generators are modelled by the list of fragments they yield, plus
  the exception (if any) that escapes after those fragments.
* The LLM endpoint is modelled as an oracle `streams : Nat → List String`
  giving the fragment list of the k-th `get_stream_response` call of a
  `process_message` invocation.
-/

/-- Python values as produced by `json.loads` / returned by tools. -/
inductive PyVal where
  | vNull : PyVal
  | vBool : Bool → PyVal
  | vInt : Int → PyVal
  | vStr : String → PyVal
  | vList : List PyVal → PyVal
  | vDict : List (String × PyVal) → PyVal

/-- Python exceptions relevant to the claims. `raisedError` stands for an
exception of unspecified class re-raised with message `msg`. -/
inductive PyErr where
  | typeError : String → PyErr
  | keyError : String → PyErr
  | zeroDivisionError : PyErr
  | valueError : String → PyErr
  | runtimeError : String → PyErr
  | raisedError : String → PyErr
  | httpStatusError : Nat → PyErr
  | jsonDecodeError : PyErr
deriving DecidableEq

/-- Does the character list `s` begin with the pattern `pat`? -/
def charsBeginWith : List Char → List Char → Bool
  | [], _ => true
  | _ :: _, [] => false
  | p :: ps, c :: cs => p == c && charsBeginWith ps cs

/-- Does the character list `s` contain `pat` as a contiguous run? -/
def charsHaveSub (pat : List Char) : List Char → Bool
  | [] => charsBeginWith pat []
  | c :: cs => charsBeginWith pat (c :: cs) || charsHaveSub pat cs

/-- Python `pat in s` on strings (substring containment). -/
def strIn (pat s : String) : Bool := charsHaveSub pat.data s.data

/-- Replace every (leftmost, non-overlapping) occurrence of `pat` by `rep`,
as Python `str.replace` does for a non-empty pattern. Structural recursion
on a fuel that starts at the length of the scanned list (each step consumes
at least one character, so the fuel never runs out). -/
def replaceChars (pat rep : List Char) : Nat → List Char → List Char
  | _, [] => []
  | 0, l => l
  | fuel + 1, c :: cs =>
    if pat ≠ [] ∧ charsBeginWith pat (c :: cs) = true then
      rep ++ replaceChars pat rep fuel (List.drop (pat.length - 1) cs)
    else
      c :: replaceChars pat rep fuel cs

/-- Python `s.replace(pat, rep)`. -/
def pyReplace (s pat rep : String) : String :=
  ⟨replaceChars pat.data rep.data s.data.length s.data⟩

/-- Drop leading whitespace characters. -/
def dropLeadingWs : List Char → List Char
  | [] => []
  | c :: cs => if c.isWhitespace then dropLeadingWs cs else c :: cs

/-- Python `s.strip()` (ASCII whitespace; exotic Unicode whitespace is not
exercised by any claim). -/
def pyStrip (s : String) : String :=
  ⟨(dropLeadingWs ((dropLeadingWs s.data).reverse)).reverse⟩

/-- A single-quote character, written via its code point. -/
def squo : String := ⟨[Char.ofNat 39]⟩

mutual

/-- Python `str`/`repr` of a value (mutually with lists and dict entries).
String escaping inside `repr` is not modelled; no claim exercises it. -/
def pyRepr : PyVal → String
  | .vNull => "None"
  | .vBool true => "True"
  | .vBool false => "False"
  | .vInt n => toString n
  | .vStr s => squo ++ s ++ squo
  | .vList xs => "[" ++ pyReprList xs ++ "]"
  | .vDict kvs => "\x7b" ++ pyReprDict kvs ++ "\x7d"

def pyReprList : List PyVal → String
  | [] => ""
  | [x] => pyRepr x
  | x :: y :: rest => pyRepr x ++ ", " ++ pyReprList (y :: rest)

def pyReprDict : List (String × PyVal) → String
  | [] => ""
  | [kv] => squo ++ kv.1 ++ squo ++ ": " ++ pyRepr kv.2
  | kv :: kw :: rest => squo ++ kv.1 ++ squo ++ ": " ++ pyRepr kv.2 ++ ", " ++ pyReprDict (kw :: rest)

end

/-- Python `str(v)` as used in f-strings: top-level strings print bare. -/
def pyStr : PyVal → String
  | .vStr s => s
  | v => pyRepr v

/-- Python `str(e)` for the modelled exceptions (messages abridged where the
exact CPython text is irrelevant to every claim). -/
def pyStrErr : PyErr → String
  | .typeError m => m
  | .keyError k => squo ++ k ++ squo
  | .zeroDivisionError => "division by zero"
  | .valueError m => m
  | .runtimeError m => m
  | .raisedError m => m
  | .httpStatusError st => "HTTP status error " ++ toString st
  | .jsonDecodeError => "JSON decode error"

/-- Dictionary lookup (Python dicts have unique keys; first match). -/
def dictGet (kvs : List (String × PyVal)) (k : String) : Option PyVal :=
  (kvs.find? (fun kv => kv.1 == k)).map Prod.snd

/-- Python `name == v` where `name` is a `str` and `v` an arbitrary value. -/
def nameMatches (name : String) : PyVal → Bool
  | .vStr s => name == s
  | _ => false

/-- Python `k in v` for a string key `k`: key membership for dicts, element
membership for lists, substring test for strings, `TypeError` otherwise. -/
def pyHasKey (k : String) : PyVal → Except PyErr Bool
  | .vDict kvs => .ok (dictGet kvs k).isSome
  | .vStr s => .ok (strIn k s)
  | .vList xs => .ok (xs.any (nameMatches k))
  | _ => .error (.typeError ("argument of type is not iterable"))

/-- Python `v[k]` for a string key `k`: dict lookup (`KeyError` when the key
is absent), `TypeError` for every non-dict value. -/
def pySubscr (v : PyVal) (k : String) : Except PyErr PyVal :=
  match v with
  | .vDict kvs =>
    match dictGet kvs k with
    | some w => .ok w
    | none => .error (.keyError k)
  | .vStr _ => .error (.typeError ("string indices must be integers"))
  | .vList _ => .error (.typeError ("list indices must be integers"))
  | _ => .error (.typeError ("value is not subscriptable"))

/-- Render a rational with one digit after the decimal point (`:.1f`);
ties are rounded up — binary-float rounding artifacts are not modelled and
no claim exercises them. -/
def fmt1f (q : ℚ) : String :=
  let t : ℤ := Int.floor (q * 10 + 1 / 2)
  toString (t / 10) ++ "." ++ toString ((t % 10).natAbs)

/-- Python `"".join(l)`. -/
def strJoin : List String → String
  | [] => ""
  | s :: rest => s ++ strJoin rest

/-- Net outcome of one `execute_tool` call as observed by
`ChatSession.process_llm_response` (the retry mechanics inside
`Server.execute_tool` / `SSEServer.execute_tool` are modelled separately
below): either an exception whose `str` is `msg`, or a returned value. -/
inductive ExecOut where
  | exc : String → ExecOut
  | ok : PyVal → ExecOut

/-- One attached server as `process_llm_response` sees it: whether its
session is initialized (otherwise `list_tools` raises `RuntimeError`),
the names of the tools it lists, and the behaviour of `execute_tool`. -/
structure ServerEnv where
  initialized : Bool
  toolNames : List String
  exec : PyVal → PyVal → ExecOut

/-- The progress-reporting step of `process_llm_response`
(src/server/main.py lines 514-519): when the tool result is a dict with a
`progress` key, look up `total` (unguarded) and compute
`(progress / total) * 100` (unguarded division); on success yield one
progress fragment. -/
def progressYields (result : PyVal) : Except PyErr (List String) :=
  match result with
  | .vDict kvs =>
    if (dictGet kvs "progress").isSome then
      match dictGet kvs "progress", dictGet kvs "total" with
      | some p, some t =>
        match p, t with
        | .vInt pn, .vInt tn =>
          if tn = 0 then .error .zeroDivisionError
          else
            .ok (["Progress: " ++ toString pn ++ "/" ++ toString tn ++
                  " (" ++ fmt1f ((pn : ℚ) / (tn : ℚ) * 100) ++ "%)"])
        | _, _ => .error (.typeError ("unsupported operand type for division"))
      | some _, none => .error (.keyError ("total"))
      | none, _ => .ok []
    else .ok []
  | _ => .ok []

/-- Body of the inner `try` of `process_llm_response` for one matching
server: execute the tool, run the progress step, yield the result fragment;
the enclosing `except Exception` turns any raise into an
`Error executing tool:` fragment, and `found` is set only when the whole
body succeeded. Returns (yields, found-contribution). -/
def toolTryBody (srv : ServerEnv) (tv args : PyVal) : List String × Bool :=
  match srv.exec tv args with
  | .exc m => (["Error executing tool: " ++ m], false)
  | .ok result =>
    match progressYields result with
    | .error e => (["Error executing tool: " ++ pyStrErr e], false)
    | .ok pys => (pys ++ ["Tool execution result: " ++ pyStr result], true)

/-- The `for server in self.servers` loop of `process_llm_response`:
`list_tools` raises (uncaught) on an uninitialized server; a server whose
tool list contains the requested name runs `toolTryBody`; the loop does not
stop after a success. Returns (yields, escaped exception, found flag). -/
def serversScan : List ServerEnv → PyVal → PyVal → List String × Option PyErr × Bool
  | [], _, _ => ([], none, false)
  | srv :: rest, tv, args =>
    if srv.initialized = false then
      ([], some (.runtimeError ("Server not initialized")), false)
    else
      let step :=
        if srv.toolNames.any (fun n => nameMatches n tv) then toolTryBody srv tv args
        else ([], false)
      let r := serversScan rest tv args
      (step.1 ++ r.1, r.2.1, step.2 || r.2.2)

/-- `ChatSession.process_llm_response` (src/server/main.py lines 497-532;
`src/server/main copy 2.py` contains a byte-identical copy): parse the
reply; on `json.JSONDecodeError` or a parsed value for which
`"tool" in v and "arguments" in v` is false, yield the reply unchanged;
otherwise yield the `Executing tool:` header (whose f-string subscripts the
value and can raise `TypeError` for non-dict values), scan the servers, and
yield a `No server found` diagnostic when no execution succeeded. Returns
(yields, exception escaping the generator). -/
def processLlmResponse (parse : String → Option PyVal) (servers : List ServerEnv)
    (llmResponse : String) : List String × Option PyErr :=
  match parse llmResponse with
  | none => ([llmResponse], none)
  | some tc =>
    match pyHasKey "tool" tc with
    | .error e => ([], some e)
    | .ok false => ([llmResponse], none)
    | .ok true =>
      match pyHasKey "arguments" tc with
      | .error e => ([], some e)
      | .ok false => ([llmResponse], none)
      | .ok true =>
        match pySubscr tc "tool" with
        | .error e => ([], some e)
        | .ok tv =>
          match pySubscr tc "arguments" with
          | .error e => ([], some e)
          | .ok args =>
            let header := "Executing tool: " ++ pyStr tv ++ " With arguments: " ++ pyStr args
            let scan := serversScan servers tv args
            match scan.2.1 with
            | some e => (header :: scan.1, some e)
            | none =>
              if scan.2.2 then (header :: scan.1, none)
              else (header :: (scan.1 ++ ["No server found with tool: " ++ pyStr tv]), none)

/-- The task-completion sentinel checked by the turn loop. -/
def taskCompleteMarker : String := "[TASK_COMPLETE]"

/-- The follow-up ("more steps coming") sentinel checked by the turn loop. -/
def followUpMarker : String := "接下来"

/-- Conversation roles of transcript messages. -/
inductive Role where
  | system : Role
  | user : Role
  | assistant : Role
deriving DecidableEq

/-- One transcript message. -/
structure Msg where
  role : Role
  content : String
deriving DecidableEq

/-- Environment of one `process_message` call: the JSON parser, the attached
servers, and the oracle giving the fragments streamed by the k-th
`get_stream_response` call. -/
structure RoundEnv where
  parse : String → Option PyVal
  servers : List ServerEnv
  streams : Nat → List String

/-- Mutable state of `process_message`: the transcript `self.messages`, the
number of model stream calls made so far, the (write-only) accumulator
`assistant_message`, and `final_response`, which the source initializes once
per user message and keeps appending to across rounds. -/
structure PMState where
  messages : List Msg
  idx : Nat
  assistantMsg : String
  finalResp : List String
deriving DecidableEq

/-- Loop control after one round of the turn loop. -/
inductive Ctl where
  | next : Ctl
  | halt : Ctl
  | raised : PyErr → Ctl
deriving DecidableEq

/-- Result of one round: new state, fragments yielded to the caller during
the round, and loop control. -/
structure StepRes where
  st : PMState
  yields : List String
  ctl : Ctl
deriving DecidableEq

/-- One iteration of the `while True` loop of `ChatSession.process_message`
(src/server/main.py lines 542-584): collect a streamed reply (not yielded),
run `process_llm_response` forwarding its fragments, and either treat the
reply as final (marker handling) or — when the processed output differs from
the reply — append the reply as an assistant message and stream a follow-up
whose fragments are forwarded, with marker handling on the accumulated
`final_response` text. An exception escaping `process_llm_response`
propagates out of the round (to the outer `except`). -/
def pmStep (env : RoundEnv) (st : PMState) : StepRes :=
  let chunks := env.streams st.idx
  let llm := strJoin chunks
  let st1 : PMState := { st with idx := st.idx + 1 }
  let pr := processLlmResponse env.parse env.servers llm
  match pr.2 with
  | some e => ⟨st1, pr.1, .raised e⟩
  | none =>
    let result := strJoin pr.1
    if result ≠ llm then
      let st2 : PMState :=
        { st1 with
          assistantMsg := st1.assistantMsg ++ "\n\n" ++ llm,
          messages := st1.messages ++ [⟨.assistant, llm⟩] }
      let chunks2 := env.streams st2.idx
      let st3 : PMState := { st2 with idx := st2.idx + 1, finalResp := st2.finalResp ++ chunks2 }
      let ftext := strJoin st3.finalResp
      if strIn taskCompleteMarker ftext then
        ⟨{ st3 with
            messages := st3.messages ++
              [⟨.assistant, pyStrip (pyReplace ftext taskCompleteMarker "")⟩] },
          pr.1 ++ chunks2, .halt⟩
      else
        ⟨{ st3 with messages := st3.messages ++ [⟨.assistant, ftext⟩] },
          pr.1 ++ chunks2, .next⟩
    else
      if strIn taskCompleteMarker llm then
        ⟨{ st1 with
            messages := st1.messages ++
              [⟨.assistant, pyStrip (pyReplace llm taskCompleteMarker "")⟩] },
          pr.1, .halt⟩
      else
        let st2 : PMState := { st1 with messages := st1.messages ++ [⟨.assistant, llm⟩] }
        if strIn followUpMarker llm then ⟨st2, pr.1, .next⟩
        else ⟨st2, pr.1, .halt⟩

/-- One iteration of the inner `while True` loop of `ChatSession.start` in
`src/server/main copy 2.py` (lines 567-613). It differs from `pmStep` in
exactly one way that matters to the claims: after a processed tool call it
appends BOTH the raw reply as an assistant message AND the processed
tool-result text as a system message before the follow-up stream call
(and it has no `assistant_message` accumulator). In that file exceptions
escaping `process_llm_response` are not caught by an `except Exception`
(only `KeyboardInterrupt` is); `.raised` models that propagation. -/
def startStep (env : RoundEnv) (st : PMState) : StepRes :=
  let chunks := env.streams st.idx
  let llm := strJoin chunks
  let st1 : PMState := { st with idx := st.idx + 1 }
  let pr := processLlmResponse env.parse env.servers llm
  match pr.2 with
  | some e => ⟨st1, pr.1, .raised e⟩
  | none =>
    let result := strJoin pr.1
    if result ≠ llm then
      let st2 : PMState :=
        { st1 with messages := st1.messages ++ [⟨.assistant, llm⟩, ⟨.system, result⟩] }
      let chunks2 := env.streams st2.idx
      let st3 : PMState := { st2 with idx := st2.idx + 1, finalResp := st2.finalResp ++ chunks2 }
      let ftext := strJoin st3.finalResp
      if strIn taskCompleteMarker ftext then
        ⟨{ st3 with
            messages := st3.messages ++
              [⟨.assistant, pyStrip (pyReplace ftext taskCompleteMarker "")⟩] },
          pr.1 ++ chunks2, .halt⟩
      else
        ⟨{ st3 with messages := st3.messages ++ [⟨.assistant, ftext⟩] },
          pr.1 ++ chunks2, .next⟩
    else
      if strIn taskCompleteMarker llm then
        ⟨{ st1 with
            messages := st1.messages ++
              [⟨.assistant, pyStrip (pyReplace llm taskCompleteMarker "")⟩] },
          pr.1, .halt⟩
      else
        let st2 : PMState := { st1 with messages := st1.messages ++ [⟨.assistant, llm⟩] }
        if strIn followUpMarker llm then ⟨st2, pr.1, .next⟩
        else ⟨st2, pr.1, .halt⟩

/-- Iterate `pmStep` (the source loop is unbounded; `fuel` bounds the model,
and every concrete run below terminates well within it). Returns the final
state, all yielded fragments, and the exception that escaped the loop, if
any. -/
def pmLoop (env : RoundEnv) : Nat → PMState → PMState × List String × Option PyErr
  | 0, st => (st, [], none)
  | fuel + 1, st =>
    match pmStep env st with
    | ⟨st2, ys, .halt⟩ => (st2, ys, none)
    | ⟨st2, ys, .raised e⟩ => (st2, ys, some e)
    | ⟨st2, ys, .next⟩ =>
      let r := pmLoop env fuel st2
      (r.1, ys ++ r.2.1, r.2.2)

/-- `ChatSession.process_message` (src/server/main.py lines 535-589): append
the user message, run the turn loop, and convert an escaping exception into
a final `Error:` fragment via the outer `except Exception`. Returns the
final state (including the transcript) and the yielded fragments. -/
def processMessage (env : RoundEnv) (fuel : Nat) (initMsgs : List Msg)
    (userInput : String) : PMState × List String :=
  let st0 : PMState := ⟨initMsgs ++ [⟨.user, userInput⟩], 0, "", []⟩
  let r := pmLoop env fuel st0
  match r.2.2 with
  | some e => (r.1, r.2.1 ++ ["Error: " ++ pyStrErr e])
  | none => (r.1, r.2.1)

/-- Outcome of one underlying `session.call_tool` attempt: an exception
whose `str` is `msg`, a non-`None` result, or a `None` result. -/
inductive CallOut where
  | exc : String → CallOut
  | okSome : PyVal → CallOut
  | okNone : CallOut

/-- Observable record of one `execute_tool` invocation: how many underlying
call attempts were made, the sleeps performed between attempts (in order,
in seconds), and the final outcome. -/
structure RunStats where
  attempts : Nat
  sleeps : List ℚ
  outcome : Except PyErr PyVal

/-- The `while attempt < retries` loop of `Server.execute_tool`
(src/server/main.py lines 194-211), at attempt counter `k` with
`budget = retries - k` iterations remaining, carrying the message of the
last caught exception: a successful call returns its result (a `None`
result is returned as-is — the local-process variant has no `None` check);
on an exception, sleep `delay` (constant) and retry while attempts remain;
in the last iteration the caught exception is re-raised (base case with a
recorded error). With budget 0 and no recorded error the loop body never
runs and the function implicitly returns `None`. -/
def serverRetryLoop (call : Nat → CallOut) (delay : ℚ) : Nat → Nat → Option String → RunStats
  | _, 0, none => ⟨0, [], .ok .vNull⟩
  | _, 0, some m => ⟨0, [], .error (.raisedError m)⟩
  | k, b + 1, _ =>
    match call k with
    | .okSome v => ⟨1, [], .ok v⟩
    | .okNone => ⟨1, [], .ok .vNull⟩
    | .exc m =>
      let r := serverRetryLoop call delay (k + 1) b (some m)
      ⟨r.attempts + 1, (if 0 < b then [delay] else []) ++ r.sleeps, r.outcome⟩

/-- `Server.execute_tool` (src/server/main.py lines 169-211): `RuntimeError`
when the session is missing, otherwise the retry loop with the configured
`retries` (default 2) and `delay` (default 1.0). The outcome of attempt k
is the oracle `call k`. -/
def serverExecuteTool (hasSession : Bool) (call : Nat → CallOut) (retries : Nat)
    (delay : ℚ) : RunStats :=
  if hasSession then serverRetryLoop call delay 0 retries none
  else ⟨0, [], .error (.runtimeError ("Server not initialized"))⟩

/-- `str` of the failure of one SSE attempt: the message of the exception, or the
`ValueError` message raised when `call_tool` returned `None`. -/
def sseFailMsg : CallOut → String
  | .exc m => m
  | .okNone => "Tool execution returned None result"
  | .okSome _ => ""

/-- Is this attempt outcome treated as a failure by `SSEServer.execute_tool`? -/
def sseIsFailure : CallOut → Bool
  | .okSome _ => false
  | _ => true

/-- The `RuntimeError` message raised after the SSE retry loop exhausts all
attempts (`last_error` is `None` only if no attempt ever ran). -/
def sseFinalMsg (retries : Nat) (lastErr : Option String) : String :=
  "Tool execution failed after " ++ toString retries ++ " attempts. Last error: " ++
    (match lastErr with
     | none => "None"
     | some m => m)

/-- The `while attempt < retries` loop of `SSEServer.execute_tool`
(src/server/main.py lines 279-312), at attempt counter `k` with
`budget = retries - k` iterations remaining and accumulated `last_error`:
a `None` result raises `ValueError` inside the `try` and thus counts as a
failed attempt like any exception; after a failure that leaves budget, sleep
`delay * 2 ^ ((k + 1) - 1)` (exponential backoff) before retrying — the
conditional reconnect (`cleanup` + `initialize`) attempted there swallows
its own errors and affects neither the attempt count nor the sleeps; when
the budget is exhausted raise `RuntimeError` carrying the last error. -/
def sseRetryLoop (call : Nat → CallOut) (delay : ℚ) (retries : Nat) :
    Nat → Nat → Option String → RunStats
  | _, 0, lastErr => ⟨0, [], .error (.runtimeError (sseFinalMsg retries lastErr))⟩
  | k, b + 1, _ =>
    match call k with
    | .okSome v => ⟨1, [], .ok v⟩
    | .okNone =>
      let r := sseRetryLoop call delay retries (k + 1) b
        (some ("Tool execution returned None result"))
      ⟨r.attempts + 1, (if 0 < b then [delay * 2 ^ k] else []) ++ r.sleeps, r.outcome⟩
    | .exc m =>
      let r := sseRetryLoop call delay retries (k + 1) b (some m)
      ⟨r.attempts + 1, (if 0 < b then [delay * 2 ^ k] else []) ++ r.sleeps, r.outcome⟩

/-- `SSEServer.execute_tool` (src/server/main.py lines 263-312): when the
session is missing, try to initialize, raising `RuntimeError` on failure;
then run the retry loop with the configured `retries` (default 3) and
`delay` (default 2.0). -/
def sseExecuteTool (hasSession initOk : Bool) (call : Nat → CallOut) (retries : Nat)
    (delay : ℚ) : RunStats :=
  if hasSession || initOk then sseRetryLoop call delay retries 0 retries none
  else ⟨0, [], .error (.runtimeError ("SSE Server initialization failed"))⟩

/-- Outcome of the HTTP POST performed by `LLMClient.get_response`: either
the request itself fails (`httpx.RequestError`), or a response arrives with
a status code and a body. -/
inductive HttpResult where
  | requestError : String → HttpResult
  | response : Nat → Option (Option String) → HttpResult

/-- `LLMClient.get_response` (src/server/main.py lines 338-384). The `try`
block posts the request, calls `response.raise_for_status()` (which raises
`httpx.HTTPStatusError` for a 4xx/5xx status), parses the JSON body (`none`
= parse failure) and indexes `data["choices"][0]["message"]["content"]`
(`some none` = path missing). The `except` clause catches ONLY
`httpx.RequestError`; `httpx.HTTPStatusError` is a sibling of
`httpx.RequestError` under `httpx.HTTPError`, not a subclass, so status and
parsing failures propagate (the `isinstance(e, httpx.HTTPStatusError)`
branch inside the handler is unreachable). -/
def getResponse (r : HttpResult) : Except PyErr String :=
  match r with
  | .requestError msg =>
    .ok ("I encountered an error: Error getting LLM response: " ++ msg ++
         ". Please try again or rephrase your request.")
  | .response status body =>
    if 400 ≤ status then .error (.httpStatusError status)
    else
      match body with
      | none => .error .jsonDecodeError
      | some none => .error (.keyError ("choices"))
      | some (some content) => .ok content

/-- State of a local-process `Server` relevant to cleanup: the resources
currently registered on its `AsyncExitStack`, and the cached session. -/
structure ServerSt where
  stackResources : List String
  hasSession : Bool
deriving DecidableEq

/-- Result of one `Server.cleanup` call: the new state, the resources
released by this call, and whether an exception escaped. -/
structure ServerCleanupRes where
  st : ServerSt
  released : List String
  raised : Bool
deriving DecidableEq

/-- `Server.cleanup` (src/server/main.py lines 213-221): under the cleanup
lock, `exit_stack.aclose()` unwinds and empties the stack (in CPython the
stack is left empty even when a callback raises, the pending exception being
re-raised after unwinding — `acloseFails` selects that case); the broad
`except` swallows any exception, but then the `session = None` /
`stdio_context = None` assignments are skipped. -/
def serverCleanup (st : ServerSt) (acloseFails : Bool) : ServerCleanupRes :=
  if acloseFails then ⟨⟨[], st.hasSession⟩, st.stackResources, false⟩
  else ⟨⟨[], false⟩, st.stackResources, false⟩

/-- State of an `SSEServer` relevant to cleanup: whether the session context
manager and the streams context manager are still referenced, and the
cached session. -/
structure SseSt where
  sessionCtx : Bool
  streamsCtx : Bool
  hasSession : Bool
deriving DecidableEq

/-- Teardown actions performed by `SSEServer.cleanup`. -/
inductive CleanupEv where
  | exitSession : CleanupEv
  | exitStreams : CleanupEv
deriving DecidableEq

/-- Result of one `SSEServer.cleanup` call: the new state, the `__aexit__`
calls it performed, and whether an exception escaped. -/
structure SseCleanupRes where
  st : SseSt
  events : List CleanupEv
  raised : Bool
deriving DecidableEq

/-- `SSEServer.cleanup` (src/server/main.py lines 314-327): under the
cleanup lock, `__aexit__` the session context if referenced, then the
streams context if referenced, then clear the three references — all inside
one `try` whose `except` swallows any exception. When an exit raises, the
statements after it (including the reference-clearing assignments) are
skipped, so the contexts stay referenced. -/
def sseCleanup (st : SseSt) (sessionExitFails streamsExitFails : Bool) : SseCleanupRes :=
  if st.sessionCtx then
    if sessionExitFails then ⟨st, [.exitSession], false⟩
    else if st.streamsCtx then
      if streamsExitFails then ⟨st, [.exitSession, .exitStreams], false⟩
      else ⟨⟨false, false, false⟩, [.exitSession, .exitStreams], false⟩
    else ⟨⟨false, false, false⟩, [.exitSession], false⟩
  else if st.streamsCtx then
    if streamsExitFails then ⟨st, [.exitStreams], false⟩
    else ⟨⟨false, false, false⟩, [.exitStreams], false⟩
  else ⟨⟨false, false, false⟩, [], false⟩

/-- A `ChatSession` as the session registry sees it: a construction counter
(distinct per constructed object) and the provider connections handed to it
(`list(global_servers.values())` — the registry shares one server set). -/
structure SessionObj where
  ident : Nat
  servers : List Nat
deriving DecidableEq

/-- Process-wide registry state of `src/server/api.py`: the `chat_sessions`
dict (as an association list in insertion order), a counter supplying fresh
construction identities, the `global_servers` values, and the `initialized`
flag. -/
structure Registry where
  sessions : List (String × SessionObj)
  nextIdent : Nat
  globalServers : List Nat
  initialized : Bool
deriving DecidableEq

/-- Lookup in the `chat_sessions` dict. -/
def lookupSession : List (String × SessionObj) → String → Option SessionObj
  | [], _ => none
  | kv :: rest, sid => if kv.1 = sid then some kv.2 else lookupSession rest sid

/-- `get_or_create_chat_session` (src/server/api.py lines 100-116): return
the registered session when the id is present; otherwise require the system
to be initialized, construct a new `ChatSession` over the current global
servers, register it under the id, and return it. -/
def getOrCreateChatSession (st : Registry) (sessionId : String) :
    Except PyErr (Registry × SessionObj) :=
  match lookupSession st.sessions sessionId with
  | some s => .ok (st, s)
  | none =>
    if st.initialized = false then .error (.runtimeError ("system not initialized"))
    else
      let s : SessionObj := ⟨st.nextIdent, st.globalServers⟩
      .ok ({ st with
              sessions := st.sessions ++ [(sessionId, s)],
              nextIdent := st.nextIdent + 1 }, s)

/-- Specification-side helper: the exponential-backoff sleep sequence
`[d * 2 ^ k, d * 2 ^ (k + 1), ...]` of length `n`. -/
def expDelays (d : ℚ) : Nat → Nat → List ℚ
  | _, 0 => []
  | k, n + 1 => d * 2 ^ k :: expDelays d (k + 1) n

/-- Oracle on which every underlying call attempt raises. -/
def callAllFail : Nat → CallOut := fun _ => .exc ("boom")

/-- Oracle on which every underlying call attempt returns a `None` result. -/
def callAllNone : Nat → CallOut := fun _ => .okNone

/-- A model reply that is exactly a JSON tool-call object for the tool
`srch` with empty arguments. -/
def jsonToolCallC1 : String := "\x7b\"tool\": \"srch\", \"arguments\": \x7b\x7d\x7d"

/-- `json.loads` restricted to the inputs of the C1 scenario: the tool-call
reply parses to the corresponding dict, everything else is not valid JSON. -/
def parseC1 : String → Option PyVal := fun s =>
  if s = jsonToolCallC1 then some (.vDict [("tool", .vStr "srch"), ("arguments", .vDict [])])
  else none

/-- Model stream oracle of the C1 scenario: first reply is the tool call,
the follow-up reply carries the completion marker. -/
def streamsC1 : Nat → List String := fun k =>
  if k = 0 then [jsonToolCallC1] else if k = 1 then ["ok [TASK_COMPLETE]"] else []

/-- C1 scenario: no servers are attached, so no server offers `srch`. -/
def envC1 : RoundEnv := ⟨parseC1, [], streamsC1⟩

/-- A parser on which no input is valid JSON (plain-text replies). -/
def parseNeverJson : String → Option PyVal := fun _ => none

/-- Model stream oracle of the C2 scenario: one plain-text reply that
contains the completion marker. -/
def streamsC2 : Nat → List String := fun k => if k = 0 then ["done [TASK_COMPLETE]"] else []

/-- C2 scenario environment. -/
def envC2 : RoundEnv := ⟨parseNeverJson, [], streamsC2⟩

/-- `json.loads` on the single input "5": the number 5 (valid JSON that is
not an object). -/
def parseInt5 : String → Option PyVal := fun s => if s = "5" then some (.vInt 5) else none

/-- A model reply that is exactly a JSON tool-call object for tool `t`. -/
def jsonToolT : String := "\x7b\"tool\": \"t\", \"arguments\": \x7b\x7d\x7d"

/-- `json.loads` restricted to the C8/C10 scenario inputs. -/
def parseT : String → Option PyVal := fun s =>
  if s = jsonToolT then some (.vDict [("tool", .vStr "t"), ("arguments", .vDict [])]) else none

/-- C10 scenario server: executing `t` succeeds and returns a dict with
`progress = 1` and `total = 0`. -/
def srvDiv0 : ServerEnv := ⟨true, ["t"], fun _ _ => .ok (.vDict [("progress", .vInt 1), ("total", .vInt 0)])⟩

/-- C8 scenario server: executing `t` succeeds with the result `okres`. -/
def srvC8 : ServerEnv := ⟨true, ["t"], fun _ _ => .ok (.vStr "okres")⟩

/-- Model stream oracle of the C8 scenario: the first reply is the tool
call, the follow-up reply carries the completion marker. -/
def streamsC8 : Nat → List String := fun k =>
  if k = 0 then [jsonToolT] else if k = 1 then ["done [TASK_COMPLETE]"] else []

/-- C8 scenario environment. -/
def envC8 : RoundEnv := ⟨parseT, [srvC8], streamsC8⟩

/-- Appending two strings concatenates their character lists. -/
theorem strData_append : ∀ (a b : String), (a ++ b).data = a.data ++ b.data
  | ⟨_⟩, ⟨_⟩ => rfl

/-- The local-process retry loop performs at most `budget` call attempts. -/
theorem serverRetryLoop_attempts_le (call : Nat → CallOut) (d : ℚ) :
    ∀ b k le, (serverRetryLoop call d k b le).attempts ≤ b := by
  intro b
  induction b with
  | zero =>
    intro k le
    cases le <;> exact le_rfl
  | succ b ih =>
    intro k le
    simp only [serverRetryLoop]
    cases hc : call k with
    | okSome v => simp
    | okNone => simp
    | exc m =>
      have := ih (k + 1) (some m)
      simp only []
      omega

/-- In the local-process retry loop, every attempt except possibly the last
performed one was an exception: attempt `j + 1` runs only after attempt `j`
failed. -/
theorem serverRetryLoop_prev (call : Nat → CallOut) (d : ℚ) :
    ∀ b k le j, j + 1 < (serverRetryLoop call d k b le).attempts →
      ∃ m, call (k + j) = .exc m := by
  intro b
  induction b with
  | zero =>
    intro k le j h
    cases le <;> simp [serverRetryLoop] at h
  | succ b ih =>
    intro k le j h
    simp only [serverRetryLoop] at h
    cases hc : call k with
    | okSome v => rw [hc] at h; simp at h
    | okNone => rw [hc] at h; simp at h
    | exc m =>
      rw [hc] at h
      simp only [] at h
      cases j with
      | zero => exact ⟨m, by simpa using hc⟩
      | succ j2 =>
        obtain ⟨m2, hm2⟩ := ih (k + 1) (some m) j2 (by omega)
        exact ⟨m2, by rw [show k + (j2 + 1) = k + 1 + j2 by omega]; exact hm2⟩

/-- Every sleep performed by the local-process retry loop equals the
configured constant delay. -/
theorem serverRetryLoop_sleeps (call : Nat → CallOut) (d : ℚ) :
    ∀ b k le x, x ∈ (serverRetryLoop call d k b le).sleeps → x = d := by
  intro b
  induction b with
  | zero =>
    intro k le x hx
    cases le <;> simp [serverRetryLoop] at hx
  | succ b ih =>
    intro k le x hx
    simp only [serverRetryLoop] at hx
    cases hc : call k with
    | okSome v => rw [hc] at hx; simp at hx
    | okNone => rw [hc] at hx; simp at hx
    | exc m =>
      rw [hc] at hx
      simp only [List.mem_append] at hx
      rcases hx with hx | hx
      · rcases Nat.eq_zero_or_pos b with hb | hb
        · simp [hb] at hx
        · simp [hb] at hx; exact hx
      · exact ih (k + 1) (some m) x hx

/-- When every available attempt fails, the local-process retry loop uses
its whole budget. -/
theorem serverRetryLoop_exhaust (call : Nat → CallOut) (d : ℚ) :
    ∀ b k le, (∀ j, j < b → ∃ m, call (k + j) = .exc m) →
      (serverRetryLoop call d k b le).attempts = b := by
  intro b
  induction b with
  | zero => intro k le h; cases le <;> rfl
  | succ b ih =>
    intro k le h
    obtain ⟨m, hm⟩ := h 0 (by omega)
    simp only [serverRetryLoop]
    rw [show k + 0 = k from rfl] at hm
    rw [hm]
    simp only []
    have := ih (k + 1) (some m) (fun j hj => by
      obtain ⟨m2, hm2⟩ := h (j + 1) (by omega)
      exact ⟨m2, by rw [show k + 1 + j = k + (j + 1) by omega]; exact hm2⟩)
    omega

/-- The SSE retry loop performs at most `budget` call attempts. -/
theorem sseRetryLoop_attempts_le (call : Nat → CallOut) (d : ℚ) (r : Nat) :
    ∀ b k le, (sseRetryLoop call d r k b le).attempts ≤ b := by
  intro b
  induction b with
  | zero => intro k le; exact le_rfl
  | succ b ih =>
    intro k le
    simp only [sseRetryLoop]
    cases hc : call k with
    | okSome v =>
      show (1 : Nat) ≤ b + 1
      omega
    | okNone =>
      show (sseRetryLoop call d r (k + 1) b
        (some ("Tool execution returned None result"))).attempts + 1 ≤ b + 1
      have := ih (k + 1) (some ("Tool execution returned None result"))
      omega
    | exc m =>
      show (sseRetryLoop call d r (k + 1) b (some m)).attempts + 1 ≤ b + 1
      have := ih (k + 1) (some m)
      omega

/-- In the SSE retry loop, every attempt except possibly the last performed
one was a failure (exception or `None` result). -/
theorem sseRetryLoop_prev (call : Nat → CallOut) (d : ℚ) (r : Nat) :
    ∀ b k le j, j + 1 < (sseRetryLoop call d r k b le).attempts →
      sseIsFailure (call (k + j)) = true := by
  intro b
  induction b with
  | zero => intro k le j h; simp [sseRetryLoop] at h
  | succ b ih =>
    intro k le j h
    simp only [sseRetryLoop] at h
    cases hc : call k with
    | okSome v =>
      rw [hc] at h
      replace h : j + 1 < 1 := h
      omega
    | okNone =>
      rw [hc] at h
      replace h : j + 1 < (sseRetryLoop call d r (k + 1) b
        (some ("Tool execution returned None result"))).attempts + 1 := h
      cases j with
      | zero => simpa [sseIsFailure] using congrArg sseIsFailure hc
      | succ j2 =>
        have := ih (k + 1) (some ("Tool execution returned None result")) j2 (by omega)
        rw [show k + (j2 + 1) = k + 1 + j2 by omega]
        exact this
    | exc m =>
      rw [hc] at h
      replace h : j + 1 < (sseRetryLoop call d r (k + 1) b (some m)).attempts + 1 := h
      cases j with
      | zero => simpa [sseIsFailure] using congrArg sseIsFailure hc
      | succ j2 =>
        have := ih (k + 1) (some m) j2 (by omega)
        rw [show k + (j2 + 1) = k + 1 + j2 by omega]
        exact this

/-- The sleeps of the SSE retry loop started at exponent `k` form the
exponential sequence `expDelays d k n` for some `n`. -/
theorem sseRetryLoop_sleeps (call : Nat → CallOut) (d : ℚ) (r : Nat) :
    ∀ b k le, ∃ n, (sseRetryLoop call d r k b le).sleeps = expDelays d k n := by
  intro b
  induction b with
  | zero => intro k le; exact ⟨0, rfl⟩
  | succ b ih =>
    intro k le
    simp only [sseRetryLoop]
    cases hc : call k with
    | okSome v => exact ⟨0, rfl⟩
    | okNone =>
      obtain ⟨n, hn⟩ := ih (k + 1) (some ("Tool execution returned None result"))
      rcases Nat.eq_zero_or_pos b with hb | hb
      · subst hb
        refine ⟨0, ?_⟩
        show (if 0 < 0 then [d * 2 ^ k] else []) ++
          (sseRetryLoop call d r (k + 1) 0 (some ("Tool execution returned None result"))).sleeps =
          expDelays d k 0
        simp [sseRetryLoop, expDelays]
      · refine ⟨n + 1, ?_⟩
        show (if 0 < b then [d * 2 ^ k] else []) ++
          (sseRetryLoop call d r (k + 1) b (some ("Tool execution returned None result"))).sleeps =
          expDelays d k (n + 1)
        rw [if_pos hb, hn]
        rfl
    | exc m =>
      obtain ⟨n, hn⟩ := ih (k + 1) (some m)
      rcases Nat.eq_zero_or_pos b with hb | hb
      · subst hb
        refine ⟨0, ?_⟩
        show (if 0 < 0 then [d * 2 ^ k] else []) ++
          (sseRetryLoop call d r (k + 1) 0 (some m)).sleeps = expDelays d k 0
        simp [sseRetryLoop, expDelays]
      · refine ⟨n + 1, ?_⟩
        show (if 0 < b then [d * 2 ^ k] else []) ++
          (sseRetryLoop call d r (k + 1) b (some m)).sleeps = expDelays d k (n + 1)
        rw [if_pos hb, hn]
        rfl

/-- For a positive base delay, the exponential sleep sequence is strictly
increasing. -/
theorem expDelays_chainLt (d : ℚ) (hd : 0 < d) :
    ∀ n k, List.Chain' (· < ·) (expDelays d k n) := by
  intro n
  induction n with
  | zero => intro k; simp [expDelays]
  | succ n ih =>
    intro k
    cases n with
    | zero => simp [expDelays]
    | succ n2 =>
      simp only [expDelays]
      rw [List.chain'_cons]
      constructor
      · have hp : (0 : ℚ) < d * 2 ^ k := by positivity
        have h2 : d * 2 ^ (k + 1) = d * 2 ^ k + d * 2 ^ k := by ring
        rw [h2]; linarith
      · have := ih (k + 1)
        simpa [expDelays] using this

/-- A non-error outcome of the SSE retry loop comes from an attempt whose
underlying call returned an actual (non-`None`) value. -/
theorem sseRetryLoop_ok (call : Nat → CallOut) (d : ℚ) (r : Nat) :
    ∀ b k le v, (sseRetryLoop call d r k b le).outcome = .ok v →
      ∃ j, j < b ∧ call (k + j) = .okSome v := by
  intro b
  induction b with
  | zero => intro k le v h; simp [sseRetryLoop] at h
  | succ b ih =>
    intro k le v h
    simp only [sseRetryLoop] at h
    cases hc : call k with
    | okSome w =>
      rw [hc] at h
      replace h : Except.ok (ε := PyErr) w = Except.ok v := h
      injection h with h2
      exact ⟨0, by omega, by rw [show k + 0 = k from rfl, hc, h2]⟩
    | okNone =>
      rw [hc] at h
      replace h : (sseRetryLoop call d r (k + 1) b
        (some ("Tool execution returned None result"))).outcome = Except.ok v := h
      obtain ⟨j, hj, hcall⟩ := ih (k + 1) (some ("Tool execution returned None result")) v h
      exact ⟨j + 1, by omega, by rw [show k + (j + 1) = k + 1 + j by omega]; exact hcall⟩
    | exc m =>
      rw [hc] at h
      replace h : (sseRetryLoop call d r (k + 1) b (some m)).outcome = Except.ok v := h
      obtain ⟨j, hj, hcall⟩ := ih (k + 1) (some m) v h
      exact ⟨j + 1, by omega, by rw [show k + (j + 1) = k + 1 + j by omega]; exact hcall⟩

/-- When every attempt fails, the SSE retry loop uses its whole budget and
raises the final `RuntimeError` carrying the last underlying error. -/
theorem sseRetryLoop_exhaust (call : Nat → CallOut) (d : ℚ) (r : Nat) :
    ∀ b k le, 0 < b → (∀ j, j < b → sseIsFailure (call (k + j)) = true) →
      (sseRetryLoop call d r k b le).attempts = b ∧
      (sseRetryLoop call d r k b le).outcome =
        .error (.runtimeError (sseFinalMsg r (some (sseFailMsg (call (k + b - 1)))))) := by
  intro b
  induction b with
  | zero => intro k le h; omega
  | succ b ih =>
    intro k le hpos hfail
    have h0 := hfail 0 (by omega)
    rw [show k + 0 = k from rfl] at h0
    simp only [sseRetryLoop]
    cases hc : call k with
    | okSome v => rw [hc] at h0; simp [sseIsFailure] at h0
    | okNone =>
      rcases Nat.eq_zero_or_pos b with hb | hb
      · subst hb
        refine ⟨rfl, ?_⟩
        rw [show k + 1 - 1 = k by omega, hc]
        rfl
      · have hrec := ih (k + 1) (some ("Tool execution returned None result")) hb (fun j hj => by
          have := hfail (j + 1) (by omega)
          rw [show k + (j + 1) = k + 1 + j by omega] at this
          exact this)
        constructor
        · show (sseRetryLoop call d r (k + 1) b
            (some ("Tool execution returned None result"))).attempts + 1 = b + 1
          omega
        · show (sseRetryLoop call d r (k + 1) b
            (some ("Tool execution returned None result"))).outcome =
            .error (.runtimeError (sseFinalMsg r (some (sseFailMsg (call (k + (b + 1) - 1))))))
          rw [hrec.2]
          rw [show k + 1 + b - 1 = k + (b + 1) - 1 by omega]
    | exc m =>
      rcases Nat.eq_zero_or_pos b with hb | hb
      · subst hb
        refine ⟨rfl, ?_⟩
        rw [show k + 1 - 1 = k by omega, hc]
        rfl
      · have hrec := ih (k + 1) (some m) hb (fun j hj => by
          have := hfail (j + 1) (by omega)
          rw [show k + (j + 1) = k + 1 + j by omega] at this
          exact this)
        constructor
        · show (sseRetryLoop call d r (k + 1) b (some m)).attempts + 1 = b + 1
          omega
        · show (sseRetryLoop call d r (k + 1) b (some m)).outcome =
            .error (.runtimeError (sseFinalMsg r (some (sseFailMsg (call (k + (b + 1) - 1))))))
          rw [hrec.2]
          rw [show k + 1 + b - 1 = k + (b + 1) - 1 by omega]

/-- When every attached server is initialized and none lists the requested
tool name, the server scan yields nothing, raises nothing, and finds
nothing. -/
theorem serversScan_nomatch (servers : List ServerEnv) (name : String) (args : PyVal)
    (h : ∀ srv ∈ servers, srv.initialized = true ∧ name ∉ srv.toolNames) :
    serversScan servers (.vStr name) args = ([], none, false) := by
  induction servers with
  | nil => rfl
  | cons srv rest ih =>
    obtain ⟨hinit, hmem⟩ := h srv (by simp)
    have hrest := ih (fun s hs => h s (by simp [hs]))
    have hone : (srv.toolNames.any (fun n => nameMatches n (.vStr name))) = false := by
      rw [List.any_eq_false]
      intro n hn
      simp only [nameMatches, beq_iff_eq]
      intro heq
      exact hmem (heq ▸ hn)
    simp [serversScan, hinit, hone, hrest]

/-- The concatenation of fragments starting with an `Executing tool:`
header begins with the character E. -/
theorem headerJoin_head (a b c : String) (tail : List String) :
    (strJoin (("Executing tool: " ++ a ++ b ++ c) :: tail)).data.head? = some 'E' := by
  have h1 : ("Executing tool: " : String).data = 'E' :: ("xecuting tool: " : String).data := by
    decide
  simp only [strJoin, strData_append, h1, List.cons_append, List.head?_cons]

/-- `process_llm_response` on a well-formed tool-call object whose tool name
no attached server offers: it yields the `Executing tool:` header and the
`No server found` diagnostic, and raises nothing. -/
theorem processLlmResponse_nomatch (parse : String → Option PyVal) (servers : List ServerEnv)
    (s name : String) (args : PyVal) (kvs : List (String × PyVal))
    (hp : parse s = some (.vDict kvs))
    (ht : dictGet kvs "tool" = some (.vStr name))
    (ha : dictGet kvs "arguments" = some args)
    (hsrv : ∀ srv ∈ servers, srv.initialized = true ∧ name ∉ srv.toolNames) :
    processLlmResponse parse servers s =
      (["Executing tool: " ++ name ++ " With arguments: " ++ pyStr args,
        "No server found with tool: " ++ name], none) := by
  have hscan := serversScan_nomatch servers name args hsrv
  simp [processLlmResponse, hp, pyHasKey, ht, ha, pySubscr, hscan, pyStr]

/-- Appending a fresh binding to an association list with no binding for the
key makes lookup of that key return the fresh binding. -/
theorem lookupSession_append_self (l : List (String × SessionObj)) (sid : String)
    (s : SessionObj) (h : lookupSession l sid = none) :
    lookupSession (l ++ [(sid, s)]) sid = some s := by
  induction l with
  | nil => simp [lookupSession]
  | cons kv rest ih =>
    simp only [lookupSession] at h ⊢
    by_cases hk : kv.1 = sid
    · simp [hk] at h
    · rw [if_neg hk] at h ⊢
      exact ih h

/-- C1 counterexample. In a concrete round whose model reply is a
well-formed tool call for the unregistered tool `srch` (no servers are
attached), `process_message` yields the `No server found` diagnostic but
does NOT end the round without another model call: the final stream-call
count is 2, i.e. a follow-up model completion call was issued in the same
round, refuting the claim as stated. -/
theorem C1_counterexample :
    (processMessage envC1 3 [⟨Role.system, "sys"⟩] "hi").1.idx = 2 ∧
    (processMessage envC1 3 [⟨Role.system, "sys"⟩] "hi").2 =
      ["Executing tool: srch With arguments: \x7b\x7d",
       "No server found with tool: srch",
       "ok [TASK_COMPLETE]"] := by
  constructor
  · rfl
  · rfl

/-- C1 (amended). For every model reply that parses as a JSON object with
`tool` and `arguments` fields whose tool name is not offered by any
attached (initialized) server, the round yields the
`No server found with tool:` diagnostic — but it does not end the round
there: because the processed output differs from the raw reply, the loop
appends the raw reply as an assistant message and issues a follow-up model
completion call in the same round (the stream-call counter advances by 2);
the round then ends according to the follow-up marker handling. The
head-character hypothesis records that the raw reply does not start with
the letter E (true of any JSON object text, which starts with a brace or
whitespace). -/
theorem C1_theorem (env : RoundEnv) (st : PMState) (name : String)
    (kvs : List (String × PyVal)) (args : PyVal)
    (hp : env.parse (strJoin (env.streams st.idx)) = some (.vDict kvs))
    (ht : dictGet kvs "tool" = some (.vStr name))
    (ha : dictGet kvs "arguments" = some args)
    (hsrv : ∀ srv ∈ env.servers, srv.initialized = true ∧ name ∉ srv.toolNames)
    (hhead : (strJoin (env.streams st.idx)).data.head? ≠ some 'E') :
    (pmStep env st).yields =
      ("Executing tool: " ++ name ++ " With arguments: " ++ pyStr args) ::
      ("No server found with tool: " ++ name) :: env.streams (st.idx + 1) ∧
    (pmStep env st).st.idx = st.idx + 2 ∧
    (∃ rest, (pmStep env st).st.messages =
      st.messages ++ ⟨Role.assistant, strJoin (env.streams st.idx)⟩ :: rest) := by
  have hpr := processLlmResponse_nomatch env.parse env.servers
    (strJoin (env.streams st.idx)) name args kvs hp ht ha hsrv
  have hne : strJoin
      ["Executing tool: " ++ name ++ " With arguments: " ++ pyStr args,
       "No server found with tool: " ++ name] ≠ strJoin (env.streams st.idx) := by
    intro h
    apply hhead
    rw [← h]
    exact headerJoin_head name (" With arguments: ") (pyStr args) _
  unfold pmStep
  dsimp only
  rw [hpr]
  dsimp only
  rw [if_pos hne]
  by_cases hm :
      strIn taskCompleteMarker (strJoin (st.finalResp ++ env.streams (st.idx + 1))) = true
  · rw [if_pos hm]
    refine ⟨rfl, by dsimp only,
      ⟨[⟨Role.assistant,
          pyStrip (pyReplace (strJoin (st.finalResp ++ env.streams (st.idx + 1)))
            taskCompleteMarker "")⟩], ?_⟩⟩
    simp
  · rw [if_neg hm]
    refine ⟨rfl, by dsimp only,
      ⟨[⟨Role.assistant, strJoin (st.finalResp ++ env.streams (st.idx + 1))⟩], ?_⟩⟩
    simp

/-- C1 witness: the amended theorem applied to the concrete C1 scenario. -/
theorem C1_witness :
    (pmStep envC1 ⟨[⟨Role.system, "sys"⟩, ⟨Role.user, "hi"⟩], 0, "", []⟩).yields =
      ("Executing tool: " ++ "srch" ++ " With arguments: " ++ pyStr (.vDict [])) ::
      ("No server found with tool: " ++ "srch") :: envC1.streams (0 + 1) ∧
    (pmStep envC1 ⟨[⟨Role.system, "sys"⟩, ⟨Role.user, "hi"⟩], 0, "", []⟩).st.idx = 0 + 2 ∧
    (∃ rest, (pmStep envC1 ⟨[⟨Role.system, "sys"⟩, ⟨Role.user, "hi"⟩], 0, "", []⟩).st.messages =
      [⟨Role.system, "sys"⟩, ⟨Role.user, "hi"⟩] ++
        ⟨Role.assistant, strJoin (envC1.streams 0)⟩ :: rest) :=
  C1_theorem envC1 ⟨[⟨Role.system, "sys"⟩, ⟨Role.user, "hi"⟩], 0, "", []⟩ "srch"
    [("tool", .vStr "srch"), ("arguments", .vDict [])] (.vDict [])
    rfl rfl rfl (by intro srv h; cases h) (by decide)

/-- C2 counterexample. In a concrete round whose plain-text model reply
contains the completion marker, `process_message` yields that raw reply —
marker included — to the external caller (while the transcript does get the
stripped text), refuting the claim that the marker never appears in any
yielded fragment. -/
theorem C2_counterexample :
    (processMessage envC2 3 [] "hi").2 = ["done [TASK_COMPLETE]"] ∧
    strIn taskCompleteMarker ("done [TASK_COMPLETE]") = true ∧
    (processMessage envC2 3 [] "hi").1.messages =
      [⟨Role.user, "hi"⟩, ⟨Role.assistant, "done"⟩] := by
  refine ⟨rfl, by decide, rfl⟩

/-- C2 (amended). Whenever the completion marker occurs in the text the
round terminates on — the reply itself on the no-tool path, or the
accumulated follow-up text on the tool path — `process_message` appends to
the transcript an assistant message equal to that text with the marker
removed and stripped, and terminates the turn loop. (The marker does,
however, reach the external caller: the raw reply or follow-up fragments
are yielded verbatim before the marker check, as the counterexample
shows.) -/
theorem C2_theorem (env : RoundEnv) (st : PMState) (llm : String)
    (hllm : strJoin (env.streams st.idx) = llm)
    (hok : (processLlmResponse env.parse env.servers llm).2 = none) :
    (strJoin (processLlmResponse env.parse env.servers llm).1 = llm →
      strIn taskCompleteMarker llm = true →
      (pmStep env st).ctl = Ctl.halt ∧
      (pmStep env st).st.messages =
        st.messages ++ [⟨Role.assistant, pyStrip (pyReplace llm taskCompleteMarker "")⟩]) ∧
    (strJoin (processLlmResponse env.parse env.servers llm).1 ≠ llm →
      strIn taskCompleteMarker (strJoin (st.finalResp ++ env.streams (st.idx + 1))) = true →
      (pmStep env st).ctl = Ctl.halt ∧
      (pmStep env st).st.messages =
        st.messages ++
          [⟨Role.assistant, llm⟩,
           ⟨Role.assistant,
            pyStrip (pyReplace (strJoin (st.finalResp ++ env.streams (st.idx + 1)))
              taskCompleteMarker "")⟩]) := by
  constructor
  · intro heq hmark
    have hstep : pmStep env st =
        ⟨{ st with
            idx := st.idx + 1
            messages := st.messages ++
              [⟨Role.assistant, pyStrip (pyReplace llm taskCompleteMarker "")⟩] },
          (processLlmResponse env.parse env.servers llm).1, Ctl.halt⟩ := by
      unfold pmStep
      dsimp only
      rw [hllm]
      rcases hpr : processLlmResponse env.parse env.servers llm with ⟨pc, pe⟩
      rw [hpr] at hok heq
      dsimp only at hok heq ⊢
      subst hok
      dsimp only
      rw [if_neg (by simpa using heq)]
      rw [if_pos hmark]
    rw [hstep]
    exact ⟨rfl, rfl⟩
  · intro hne hmark
    have hstep : pmStep env st =
        ⟨{ st with
            idx := st.idx + 1 + 1
            assistantMsg := st.assistantMsg ++ "\n\n" ++ llm
            finalResp := st.finalResp ++ env.streams (st.idx + 1)
            messages := st.messages ++ [⟨Role.assistant, llm⟩] ++
              [⟨Role.assistant,
                pyStrip (pyReplace (strJoin (st.finalResp ++ env.streams (st.idx + 1)))
                  taskCompleteMarker "")⟩] },
          (processLlmResponse env.parse env.servers llm).1 ++ env.streams (st.idx + 1),
          Ctl.halt⟩ := by
      unfold pmStep
      dsimp only
      rw [hllm]
      rcases hpr : processLlmResponse env.parse env.servers llm with ⟨pc, pe⟩
      rw [hpr] at hok hne
      dsimp only at hok hne ⊢
      subst hok
      dsimp only
      rw [if_pos hne]
      rw [if_pos hmark]
    rw [hstep]
    refine ⟨rfl, ?_⟩
    simp

/-- C2 witness: the amended theorem applied to the concrete C2 scenario
(no-tool path). -/
theorem C2_witness :
    (pmStep envC2 ⟨[⟨Role.user, "hi"⟩], 0, "", []⟩).ctl = Ctl.halt ∧
    (pmStep envC2 ⟨[⟨Role.user, "hi"⟩], 0, "", []⟩).st.messages =
      [⟨Role.user, "hi"⟩] ++
        [⟨Role.assistant,
          pyStrip (pyReplace ("done [TASK_COMPLETE]") taskCompleteMarker "")⟩] :=
  (C2_theorem envC2 ⟨[⟨Role.user, "hi"⟩], 0, "", []⟩ ("done [TASK_COMPLETE]") (by decide) rfl).1
    (by decide) (by decide)

/-- C3 counterexample. The input "5" is valid JSON (the number 5) that is
not an object and hence has neither a `tool` nor an `arguments` field, yet
`process_llm_response` does not yield the input unchanged: the Python
membership test `"tool" in 5` raises `TypeError`, which escapes the
generator (only `json.JSONDecodeError` is caught). -/
theorem C3_counterexample :
    parseInt5 "5" = some (.vInt 5) ∧
    processLlmResponse parseInt5 [] "5" =
      ([], some (.typeError ("argument of type is not iterable"))) ∧
    processLlmResponse parseInt5 [] "5" ≠ (["5"], none) := by
  refine ⟨rfl, rfl, ?_⟩
  decide

/-- C3 (amended). For every input string that is not valid JSON, or is
valid JSON whose value is an OBJECT lacking the `tool` key or the
`arguments` key, `process_llm_response` yields exactly the input string
unchanged and invokes no tool. (For non-object JSON values the claim as
stated fails: the membership test itself can raise, as the counterexample
shows.) -/
theorem C3_theorem (parse : String → Option PyVal) (servers : List ServerEnv) (s : String)
    (h : parse s = none ∨ ∃ kvs, parse s = some (.vDict kvs) ∧
          (dictGet kvs "tool" = none ∨ dictGet kvs "arguments" = none)) :
    processLlmResponse parse servers s = ([s], none) := by
  rcases h with h | ⟨kvs, hp, hk⟩
  · simp [processLlmResponse, h]
  · rcases hk with hk | hk
    · simp [processLlmResponse, hp, pyHasKey, hk]
    · cases htool : dictGet kvs "tool" with
      | none => simp [processLlmResponse, hp, pyHasKey, htool]
      | some tv => simp [processLlmResponse, hp, pyHasKey, htool, hk]

/-- C3 witness: a non-JSON reply is yielded unchanged. -/
theorem C3_witness : processLlmResponse parseInt5 [] "hello" = (["hello"], none) :=
  C3_theorem parseInt5 [] "hello" (Or.inl rfl)

/-- C6. The claim says `LLMClient.get_response` never propagates any
failure of the HTTP request, the response status, or the response parsing.
The code contradicts it — and contradicts its own dead
`isinstance(e, httpx.HTTPStatusError)` handler branch: only
`httpx.RequestError` is caught, and `httpx.HTTPStatusError` (raised by
`raise_for_status()` for a 500 status) is not a subclass of it, so the
status failure propagates out of `get_response`; only the request-level
failure is converted to the synthesized string. -/
theorem C6_theorem :
    getResponse (.response 500 none) = .error (.httpStatusError 500) ∧
    getResponse (.requestError ("Connection refused")) =
      .ok ("I encountered an error: Error getting LLM response: Connection refused. Please try again or rephrase your request.") :=
  ⟨rfl, rfl⟩

/-- C7 counterexample. For an `SSEServer` whose session context exits
cleanly but whose streams context raises during the first cleanup, the
reference-clearing assignments are skipped, so a second cleanup calls
`__aexit__` on the already-exited session context again: the session
transport is released twice across the two calls (neither call raises). -/
theorem C7_counterexample :
    ((sseCleanup ⟨true, true, true⟩ false true).events.count CleanupEv.exitSession) +
    ((sseCleanup (sseCleanup ⟨true, true, true⟩ false true).st false false).events.count
      CleanupEv.exitSession) = 2 ∧
    (sseCleanup ⟨true, true, true⟩ false true).raised = false := by
  decide

/-- C7 (amended). Cleanup never lets an exception escape, for both
variants, in every state; the local-process `Server.cleanup` never releases
the same transport twice (the exit stack is empty after any cleanup, so a
repeated cleanup releases nothing); and `SSEServer.cleanup` is idempotent
after a cleanup in which no teardown error occurred — but after a failed
teardown it can re-release an already-exited context, as the
counterexample shows. -/
theorem C7_theorem :
    (∀ st f, (serverCleanup st f).raised = false) ∧
    (∀ st f g, (serverCleanup (serverCleanup st f).st g).released = []) ∧
    (∀ st f g, (sseCleanup st f g).raised = false) ∧
    (∀ st f g, (sseCleanup (sseCleanup st false false).st f g).events = []) := by
  refine ⟨?_, ?_, ?_, ?_⟩
  · intro st f; cases f <;> rfl
  · intro st f g; cases f <;> cases g <;> rfl
  · intro st f g
    rcases st with ⟨a, b, c⟩
    cases a <;> cases b <;> cases f <;> cases g <;> rfl
  · intro st f g
    rcases st with ⟨a, b, c⟩
    cases a <;> cases b <;> cases f <;> cases g <;> rfl

/-- C7 witness: the amended theorem instantiated at concrete states. -/
theorem C7_witness :
    (serverCleanup ⟨["stdio"], true⟩ false).raised = false ∧
    (sseCleanup (sseCleanup ⟨true, true, true⟩ false false).st false false).events = [] :=
  ⟨C7_theorem.1 ⟨["stdio"], true⟩ false, C7_theorem.2.2.2 ⟨true, true, true⟩ false false⟩

/-- C8. The claim says that after a processed tool call the turn loop
appends the raw reply as an assistant message AND the tool result as a
system message before the follow-up model call. `ChatSession.start` in
`src/server/main copy 2.py` does exactly that (third conjunct), but
`ChatSession.process_message` in `src/server/main.py` — the loop actually
driven by `api.py` — omits the system append: in a concrete round with a
successful tool call, the final transcript contains only the initial system
preamble, the user message, the raw JSON reply, and the final assistant
text; the tool result never enters the transcript, so the follow-up model
call cannot see it. This contradicts the embedded system prompt
("After receiving a tool response: transform the raw data ..."), so the
code, not the claim, is wrong. -/
theorem C8_theorem :
    (processMessage envC8 3 [⟨Role.system, "sys"⟩] "hi").1.messages =
      [⟨Role.system, "sys"⟩, ⟨Role.user, "hi"⟩,
       ⟨Role.assistant, jsonToolT⟩, ⟨Role.assistant, "done"⟩] ∧
    ((processMessage envC8 3 [⟨Role.system, "sys"⟩] "hi").1.messages.filter
      (fun m => m.role == Role.system)).length = 1 ∧
    (startStep envC8 ⟨[⟨Role.system, "sys"⟩, ⟨Role.user, "hi"⟩], 0, "", []⟩).st.messages =
      [⟨Role.system, "sys"⟩, ⟨Role.user, "hi"⟩,
       ⟨Role.assistant, jsonToolT⟩,
       ⟨Role.system, "Executing tool: t With arguments: \x7b\x7dTool execution result: okres"⟩,
       ⟨Role.assistant, "done"⟩] := by
  refine ⟨rfl, rfl, rfl⟩

/-- C9. Calling `get_or_create_chat_session` twice sequentially with the
same session id returns the same session object the second time, with the
registry unchanged — no second session (and no second set of provider
connections) is constructed — and a single call grows the registry by at
most one entry. -/
theorem C9_theorem (st : Registry) (sid : String) (st2 : Registry) (s : SessionObj)
    (h : getOrCreateChatSession st sid = .ok (st2, s)) :
    getOrCreateChatSession st2 sid = .ok (st2, s) ∧
    st2.sessions.length ≤ st.sessions.length + 1 := by
  unfold getOrCreateChatSession at h
  cases hl : lookupSession st.sessions sid with
  | some s0 =>
    rw [hl] at h
    injection h with h2
    injection h2 with h3 h4
    subst h3; subst h4
    constructor
    · unfold getOrCreateChatSession
      rw [hl]
    · omega
  | none =>
    rw [hl] at h
    by_cases hi : st.initialized = false
    · rw [if_pos hi] at h; exact absurd h (by simp)
    · rw [if_neg hi] at h
      injection h with h2
      injection h2 with h3 h4
      subst h4
      constructor
      · unfold getOrCreateChatSession
        rw [← h3]
        have : lookupSession (st.sessions ++ [(sid, ⟨st.nextIdent, st.globalServers⟩)]) sid =
            some ⟨st.nextIdent, st.globalServers⟩ := lookupSession_append_self _ _ _ hl
        simp only [this]
      · rw [← h3]
        simp

/-- C9 witness: creating session id `a` in an initialized registry and then
calling again returns the same object with the registry unchanged. -/
theorem C9_witness :
    getOrCreateChatSession ⟨[("a", ⟨0, [7]⟩)], 1, [7], true⟩ "a" =
      .ok (⟨[("a", ⟨0, [7]⟩)], 1, [7], true⟩, (⟨0, [7]⟩ : SessionObj)) ∧
    (⟨[("a", ⟨0, [7]⟩)], 1, [7], true⟩ : Registry).sessions.length ≤
      (⟨[], 0, [7], true⟩ : Registry).sessions.length + 1 :=
  C9_theorem ⟨[], 0, [7], true⟩ "a" ⟨[("a", ⟨0, [7]⟩)], 1, [7], true⟩ ⟨0, [7]⟩ rfl

/-- C10. The progress-reporting step of `process_llm_response` computes
`(progress / total) * 100` without guarding the division or the `total`
lookup: a result dict with `total = 0` raises `ZeroDivisionError` and one
with `progress` but no `total` raises `KeyError`, instead of yielding a
progress fragment — in the full round the raise is caught by the inner
`except` and surfaces as an `Error executing tool:` fragment with no
`Progress:` fragment (and, `found` never being set, a spurious
`No server found` diagnostic). -/
theorem C10_theorem :
    progressYields (.vDict [("progress", .vInt 1), ("total", .vInt 0)]) = .error .zeroDivisionError ∧
    progressYields (.vDict [("progress", .vInt 1)]) = .error (.keyError ("total")) ∧
    processLlmResponse parseT [srvDiv0] jsonToolT =
      (["Executing tool: t With arguments: \x7b\x7d",
        "Error executing tool: division by zero",
        "No server found with tool: t"], none) :=
  ⟨rfl, rfl, rfl⟩

/-- C4. For every tool invocation, the number of underlying call attempts is
bounded exactly by the configured retry limit (at most 2 for the
local-process `Server`, with a constant inter-attempt delay of 1.0s; at
most 3 for the streamed-remote `SSEServer`), the Nth attempt occurs only
after the (N-1)th attempt failed, and for the streamed-remote variant the
delay before the next attempt is `delay * 2 ^ (attempt - 1)` (here
`2 * 2 ^ k` before attempt `k + 2`), strictly increasing across attempts;
the bounds are tight: when every attempt fails, exactly `retries` attempts
are made. -/
theorem C4_theorem (callS callE : Nat → CallOut) :
    (serverExecuteTool true callS 2 1).attempts ≤ 2 ∧
    (∀ j, j + 1 < (serverExecuteTool true callS 2 1).attempts → ∃ m, callS j = .exc m) ∧
    (∀ x ∈ (serverExecuteTool true callS 2 1).sleeps, x = 1) ∧
    ((∀ j, j < 2 → ∃ m, callS j = .exc m) → (serverExecuteTool true callS 2 1).attempts = 2) ∧
    (sseExecuteTool true true callE 3 2).attempts ≤ 3 ∧
    (∀ j, j + 1 < (sseExecuteTool true true callE 3 2).attempts →
      sseIsFailure (callE j) = true) ∧
    (∃ n, (sseExecuteTool true true callE 3 2).sleeps = expDelays 2 0 n) ∧
    List.Chain' (· < ·) (sseExecuteTool true true callE 3 2).sleeps ∧
    ((∀ j, j < 3 → sseIsFailure (callE j) = true) →
      (sseExecuteTool true true callE 3 2).attempts = 3) := by
  have hS : serverExecuteTool true callS 2 1 = serverRetryLoop callS 1 0 2 none := rfl
  have hE : sseExecuteTool true true callE 3 2 = sseRetryLoop callE 2 3 0 3 none := rfl
  rw [hS, hE]
  refine ⟨serverRetryLoop_attempts_le callS 1 2 0 none, ?_, ?_, ?_, ?_, ?_, ?_, ?_, ?_⟩
  · intro j hj
    have := serverRetryLoop_prev callS 1 2 0 none j hj
    simpa using this
  · intro x hx
    exact serverRetryLoop_sleeps callS 1 2 0 none x hx
  · intro h
    exact serverRetryLoop_exhaust callS 1 2 0 none (fun j hj => by simpa using h j hj)
  · exact sseRetryLoop_attempts_le callE 2 3 3 0 none
  · intro j hj
    have := sseRetryLoop_prev callE 2 3 3 0 none j hj
    simpa using this
  · exact sseRetryLoop_sleeps callE 2 3 3 0 none
  · obtain ⟨n, hn⟩ := sseRetryLoop_sleeps callE 2 3 3 0 none
    rw [hn]
    exact expDelays_chainLt 2 (by norm_num) n 0
  · intro h
    exact (sseRetryLoop_exhaust callE 2 3 3 0 none (by omega)
      (fun j hj => by simpa using h j hj)).1

/-- C4 witness: with an always-failing oracle, both variants make exactly
their configured number of attempts. -/
theorem C4_witness :
    (serverExecuteTool true callAllFail 2 1).attempts = 2 ∧
    (sseExecuteTool true true callAllFail 3 2).attempts = 3 :=
  ⟨(C4_theorem callAllFail callAllFail).2.2.2.1 (fun _ _ => ⟨"boom", rfl⟩),
   (C4_theorem callAllFail callAllFail).2.2.2.2.2.2.2.2 (fun _ _ => rfl)⟩

/-- C5. For the streamed-remote `SSEServer.execute_tool`: a non-error value
is only ever returned from an attempt whose underlying call produced a
non-`None` result (a `None` result raises `ValueError` inside the `try` and
so is itself a counted, retried failure), and when every attempt fails the
call raises a `RuntimeError` carrying the last underlying error — it never
returns a `None` result to the caller. -/
theorem C5_theorem (call : Nat → CallOut) :
    (∀ v, (sseExecuteTool true true call 3 2).outcome = .ok v →
      ∃ j, j < 3 ∧ call j = .okSome v) ∧
    ((∀ j, j < 3 → sseIsFailure (call j) = true) →
      (sseExecuteTool true true call 3 2).attempts = 3 ∧
      (sseExecuteTool true true call 3 2).outcome =
        .error (.runtimeError (sseFinalMsg 3 (some (sseFailMsg (call 2)))))) := by
  have hE : sseExecuteTool true true call 3 2 = sseRetryLoop call 2 3 0 3 none := rfl
  rw [hE]
  constructor
  · intro v hv
    obtain ⟨j, hj, hcall⟩ := sseRetryLoop_ok call 2 3 3 0 none v hv
    exact ⟨j, hj, by simpa using hcall⟩
  · intro h
    have := sseRetryLoop_exhaust call 2 3 3 0 none (by omega)
      (fun j hj => by simpa using h j hj)
    simpa using this

/-- C5 witness: with an all-`None` oracle all three attempts run and the
call fails with the `RuntimeError` carrying the `ValueError` text. -/
theorem C5_witness :
    (sseExecuteTool true true callAllNone 3 2).attempts = 3 ∧
    (sseExecuteTool true true callAllNone 3 2).outcome =
      .error (.runtimeError (sseFinalMsg 3 (some (sseFailMsg (callAllNone 2))))) :=
  (C5_theorem callAllNone).2 (fun _ _ => rfl)
